import Mathlib

/-!
Verification of the sql-agent pipeline (src/sql.py).

The script is embedded shallowly:
  * the LLM is an oracle `Nat → String → Option String` taking the attempt
    index and the varying "input" field of the prompt (the user question,
    augmented with an extra instruction on retries); `none` models the call
    raising, `some s` models a structured response whose `query` field is `s`
    (the dialect / table_info / top_k parts of the prompt are fixed per
    process and are absorbed into the oracle);
  * the database tool is an oracle `String → Except String String`: `ok r` is
    the raw result text, `error e` models the tool raising with message `e`;
  * a Python dict of type `State` is a record of four `Option String` fields
    (`none` = key absent); a step returns a partial update that the graph
    runner merges into the state (langgraph merges exactly the keys present
    in the returned dict);
  * stdout and the module-level calls are an explicit event trace;
  * Python exceptions are `Except String`; an uncaught exception terminates
    the process with exit status 1, a normal return with status 0, and a bare
    `exit()` raises `SystemExit(None)` which terminates with status 0.
-/

namespace SqlAgent

/-- Substring machinery: does `hay` start with `needle`? (char-list level). -/
def beginsWith : List Char → List Char → Bool
  | [], _ => true
  | _ :: _, [] => false
  | a :: as, b :: bs => a == b && beginsWith as bs

/-- Substring machinery: does `needle` occur somewhere in `hay`? -/
def subList : List Char → List Char → Bool
  | needle, [] => beginsWith needle []
  | needle, c :: rest => beginsWith needle (c :: rest) || subList needle rest

/-- Python `needle in hay` on strings. -/
def containsSubstring (hay needle : String) : Bool :=
  subList needle.data hay.data

/-- Python `str.upper()` (character-wise, as for ASCII SQL text). -/
def upperString (s : String) : String :=
  String.mk (s.data.map Char.toUpper)

/-- The validation used by `write_query`: Python `"SELECT" in sql_query.upper()`. -/
def containsSelect (s : String) : Bool :=
  containsSubstring (upperString s) "SELECT"

/-- Python `sql_query and "SELECT" in sql_query.upper()` (truthiness of a
string is non-emptiness). -/
def isValidQuery (s : String) : Bool :=
  !s.data.isEmpty && containsSelect s

/-- ASCII whitespace as stripped by Python `str.strip()`. -/
def isPySpace (c : Char) : Bool :=
  c == ' ' || c == '\t' || c == '\n' || c == '\r' || c == '\x0b' || c == '\x0c'

/-- Python `str.strip()` on a char list. -/
def stripChars (l : List Char) : List Char :=
  ((l.dropWhile isPySpace).reverse.dropWhile isPySpace).reverse

/-- Python `s.strip().lower()` as used on the continue-prompt input. -/
def stripLower (s : String) : String :=
  String.mk ((stripChars s.data).map Char.toLower)

/-- The `State` TypedDict of src/sql.py (question / query / result / answer).
A field is `none` when the key is absent from the dict. -/
structure State where
  question : Option String
  query : Option String
  result : Option String
  answer : Option String
deriving DecidableEq

/-- A partial update returned by one pipeline step (a dict holding only the
keys the step sets). -/
structure StateUpdate where
  question : Option String
  query : Option String
  result : Option String
  answer : Option String
deriving DecidableEq

/-- langgraph merges the keys present in the dict a step returns into the
shared state, leaving absent keys unchanged. -/
def mergeUpdate (s : State) (u : StateUpdate) : State where
  question := match u.question with | some v => some v | none => s.question
  query := match u.query with | some v => some v | none => s.query
  result := match u.result with | some v => some v | none => s.result
  answer := match u.answer with | some v => some v | none => s.answer

/-- The extra clarifying phrase appended to the question on retries
(src/sql.py line 72). -/
def extraInstruction : String :=
  " Please ensure you use the correct column mapping for the query."

/-- The varying "input" field of the generation prompt at a given attempt:
the question itself on attempt 0, question plus the extra instruction later. -/
def attemptInput (question : String) (attempt : Nat) : String :=
  if attempt > 0 then question ++ extraInstruction else question

/-- The retry loop of `write_query` (src/sql.py lines 64-96): `fuel` is the
number of remaining iterations (`max_retries - attempt`), `sql_query` the
current value of the loop variable.  `question = none` models a state dict
without a "question" key: the `state["question"]` lookup happens inside the
`try`, so the KeyError is caught and the iteration counts as a failed
attempt.  An oracle answer `none` is the model call raising (caught, retry);
`some out` stores `out` in `sql_query` and breaks out of the loop when the
validation passes. -/
def writeQueryGo (oracle : Nat → String → Option String) (question : Option String) :
    Nat → Nat → String → String
  | _, 0, sql_query => sql_query
  | attempt, fuel + 1, sql_query =>
    match question with
    | none => writeQueryGo oracle question (attempt + 1) fuel sql_query
    | some q =>
      match oracle attempt (attemptInput q attempt) with
      | none => writeQueryGo oracle question (attempt + 1) fuel sql_query
      | some out =>
        if isValidQuery out then out
        else writeQueryGo oracle question (attempt + 1) fuel out

/-- Number of loop iterations (model invocations / attempts) the retry loop
performs, with the same control flow as `writeQueryGo`. -/
def writeQueryAttempts (oracle : Nat → String → Option String) (question : Option String) :
    Nat → Nat → Nat
  | _, 0 => 0
  | attempt, fuel + 1 =>
    match question with
    | none => 1 + writeQueryAttempts oracle question (attempt + 1) fuel
    | some q =>
      match oracle attempt (attemptInput q attempt) with
      | none => 1 + writeQueryAttempts oracle question (attempt + 1) fuel
      | some out =>
        if isValidQuery out then 1
        else 1 + writeQueryAttempts oracle question (attempt + 1) fuel

/-- `write_query` (src/sql.py lines 61-101): run the retry loop, then return
`{"query": sql_query}` if the final validation passes, else raise
`ValueError`.  The call sites use the default `max_retries=3`. -/
def write_query (oracle : Nat → String → Option String) (state : State)
    (max_retries : Nat) : Except String StateUpdate :=
  let sql_query := writeQueryGo oracle state.question 0 max_retries ""
  if isValidQuery sql_query then
    Except.ok (StateUpdate.mk none (some sql_query) none none)
  else
    Except.error "Failed to generate a valid SQL query after multiple attempts."

/-- `execute_query` (src/sql.py lines 104-111): run the tool on
`state["query"]` inside a `try`; any exception (the tool raising, or the
KeyError of a missing "query" key, whose Python rendering is the quoted key
name) becomes the result string `"Query execution failed: ..."`. -/
def execute_query (execTool : String → Except String String) (state : State) :
    Except String StateUpdate :=
  match state.query with
  | none =>
    Except.ok (StateUpdate.mk none none (some ("Query execution failed: " ++ "KeyError: query")) none)
  | some q =>
    match execTool q with
    | Except.ok r => Except.ok (StateUpdate.mk none none (some r) none)
    | Except.error e =>
      Except.ok (StateUpdate.mk none none (some ("Query execution failed: " ++ e)) none)

/-- The fixed leading sentence of the answer prompt (src/sql.py lines
117-118; two adjacent Python string literals concatenate). -/
def answerHeader : String :=
  "Given the following user question, corresponding SQL query, and SQL result, answer the user question.\n\n"

/-- The prompt `generate_answer` builds (src/sql.py lines 116-122), as the
source writes it: header, then three f-string lines. -/
def answerPrompt (question query result : String) : String :=
  answerHeader ++ "Question: " ++ question ++ "\n" ++
    "SQL Query: " ++ query ++ "\n" ++ "SQL Result: " ++ result

/-- The format the spec describes: some header followed by exactly the three
labeled fields "Question:", "SQL Query:", "SQL Result:" in that order. -/
def specLabeledPrompt (header question query result : String) : String :=
  header ++ "Question: " ++ question ++ "\n" ++
    "SQL Query: " ++ query ++ "\n" ++ "SQL Result: " ++ result

/-- `generate_answer` (src/sql.py lines 114-125): read the three fields (a
missing key raises, uncaught — the f-string evaluates question, then query,
then result), send the prompt to the model, return `{"answer": ...}`. -/
def generate_answer (llmAnswer : String → String) (state : State) :
    Except String StateUpdate :=
  match state.question with
  | none => Except.error "KeyError: question"
  | some q =>
    match state.query with
    | none => Except.error "KeyError: query"
    | some qu =>
      match state.result with
      | none => Except.error "KeyError: result"
      | some r =>
        Except.ok (StateUpdate.mk none none none (some (llmAnswer (answerPrompt q qu r))))

/-- A node of the compiled graph: its name (langgraph uses the Python
function name) and its step function. -/
structure Node where
  name : String
  run : State → Except String StateUpdate

/-- The node sequence built by `StateGraph(State).add_sequence([write_query,
execute_query, generate_answer])` with `add_edge(START, "write_query")`
(src/sql.py lines 128-132). -/
def graphNodes (oracle : Nat → String → Option String)
    (execTool : String → Except String String) (llmAnswer : String → String) :
    List Node :=
  [Node.mk "write_query" (fun s => write_query oracle s 3),
   Node.mk "execute_query" (execute_query execTool),
   Node.mk "generate_answer" (generate_answer llmAnswer)]

/-- Outcome of iterating `graph.stream(state, stream_mode="updates")`:
the yielded `{node_name: update}` steps, the invocation order of the nodes,
and the exception, if a node raised (ending the iteration). -/
structure StreamResult where
  yields : List (String × StateUpdate)
  invoked : List String
  err : Option String
deriving DecidableEq

/-- Sequential execution of the compiled graph: each node runs on the current
state, its update is merged in, and an exception aborts the run. -/
def streamSteps : List Node → State → StreamResult
  | [], _ => StreamResult.mk [] [] none
  | n :: rest, s =>
    match n.run s with
    | Except.error e => StreamResult.mk [] [n.name] (some e)
    | Except.ok u =>
      let r := streamSteps rest (mergeUpdate s u)
      StreamResult.mk ((n.name, u) :: r.yields) (n.name :: r.invoked) r.err

/-- Observable events of a process run: a printed line, a yielded step being
printed (`print("Step output:", step)`), a labeled stage print (one of the
three `print("Generated SQL Query: ...")`-style branches), and an invocation
of `write_query` by the module-level test code. -/
inductive Event where
  | out (s : String)
  | stepOut (node : String) (u : StateUpdate)
  | labeled (label : String) (u : StateUpdate)
  | callWriteQuery (question : String)
deriving DecidableEq

/-- The prints `ask_query` performs for one yielded step (src/sql.py lines
147-153): the debug print, then the `if "query" in step / elif "result" in
step / elif "answer" in step` chain.  `step` is the dict `{node_name:
update}`, so the key tested is the node name. -/
def stepPrints (p : String × StateUpdate) : List Event :=
  Event.stepOut p.1 p.2 ::
    (if p.1 == "query" then [Event.labeled "Generated SQL Query: 📝" p.2]
     else if p.1 == "result" then [Event.labeled "Query Results: 📊" p.2]
     else if p.1 == "answer" then [Event.labeled "Final Answer: ✅" p.2]
     else [])

/-- `ask_query` (src/sql.py lines 139-153): prompt for a question, print the
processing banner, stream the graph on `{"question": user_question}` printing
each yielded step; a pipeline exception propagates to the caller. -/
def ask_query (nodes : List Node) (question : String) : List Event × Option String :=
  let r := streamSteps nodes (State.mk (some question) none none none)
  (Event.out "\nEnter your query: " :: Event.out "\nProcessing query... 🔄" ::
     r.yields.flatMap stepPrints,
   r.err)

/-- The fixed question of the module-level test call (src/sql.py line 165). -/
def testQuestion : String := "How many songs does Coldplay have?"

/-- The module tail (src/sql.py lines 164-167), which sits at module level —
outside the `if` — so it runs after the loop ends, and also on plain module
load: call `write_query` on the fixed test question and print the generated
query.  If the call raises, the exception is uncaught: exit status 1 and no
print; otherwise status 0. -/
def programTail (oracle : Nat → String → Option String) : List Event × Nat :=
  match write_query oracle (State.mk (some testQuestion) none none none) 3 with
  | Except.ok u =>
    ([Event.callWriteQuery testQuestion,
      Event.out ("Generated query: " ++ u.query.getD "")], 0)
  | Except.error _ => ([Event.callWriteQuery testQuestion], 1)

/-- The continue-prompt text (src/sql.py line 160). -/
def contPrompt : String := "\nDo you want to ask another question? (yes/no): "

/-- The `while True` loop of the `__main__` block (src/sql.py lines 158-163)
followed by the module tail.  `inputs` is the stream of terminal inputs
(question at `idx`, continue answer at `idx + 1`, ...); `fuel` bounds the
number of rounds modelled (`none` exit code = still looping when fuel runs
out).  A pipeline exception is uncaught (exit status 1).  The loop breaks —
printing the farewell and falling through to the tail — exactly when the
stripped, lowercased continue answer differs from "yes". -/
def mainLoop (oracle : Nat → String → Option String)
    (execTool : String → Except String String) (llmAnswer : String → String)
    (inputs : Nat → String) : Nat → Nat → List Event × Option Nat
  | 0, _ => ([], none)
  | fuel + 1, idx =>
    let ar := ask_query (graphNodes oracle execTool llmAnswer) (inputs idx)
    match ar.2 with
    | some _ => (ar.1, some 1)
    | none =>
      if stripLower (inputs (idx + 1)) == "yes" then
        let r := mainLoop oracle execTool llmAnswer inputs fuel (idx + 2)
        (ar.1 ++ Event.out contPrompt :: r.1, r.2)
      else
        let t := programTail oracle
        (ar.1 ++ Event.out contPrompt :: Event.out "Goodbye! 👋" :: t.1, some t.2)

/-- What runs after module initialisation: the interactive loop then the tail
when the script is run as `__main__`, only the tail when it is loaded as a
module (the `if __name__ == "__main__":` guard skips the loop). -/
def runModule (isMain : Bool) (oracle : Nat → String → Option String)
    (execTool : String → Except String String) (llmAnswer : String → String)
    (inputs : Nat → String) (fuel : Nat) : List Event × Option Nat :=
  if isMain then mainLoop oracle execTool llmAnswer inputs fuel 0
  else
    let t := programTail oracle
    (t.1, some t.2)

/-- The connected database handle (`SQLDatabase.from_uri` result): dialect
name and usable table names, as printed at startup. -/
structure DbHandle where
  dialect : String
  tables : List String
deriving DecidableEq

/-- The whole process (src/sql.py from line 13): attempt the database
connection first; on any exception print `"Database connection error: ..."`
and call the bare `exit()` — `SystemExit(None)`, exit status 0 — before any
pipeline component exists; on success print the dialect and tables and run
the rest of the module. -/
def wholeProgram (isMain : Bool) (conn : Except String DbHandle)
    (oracle : Nat → String → Option String)
    (execTool : String → Except String String) (llmAnswer : String → String)
    (inputs : Nat → String) (fuel : Nat) : List Event × Option Nat :=
  match conn with
  | Except.error e => ([Event.out ("Database connection error: " ++ e)], some 0)
  | Except.ok db =>
    let r := runModule isMain oracle execTool llmAnswer inputs fuel
    (Event.out ("Connected to: " ++ db.dialect) ::
       Event.out ("Tables: " ++ String.intercalate ", " db.tables) :: r.1,
     r.2)

/-! Helper lemmas. -/

lemma beginsWith_append (l rest : List Char) : beginsWith l (l ++ rest) = true := by
  induction l with
  | nil => rfl
  | cons a as ih => simp [beginsWith, ih]

lemma subList_nil_left (hay : List Char) : subList [] hay = true := by
  cases hay with
  | nil => rfl
  | cons c rest => simp [subList, beginsWith]

lemma subList_self_append (l rest : List Char) : subList l (l ++ rest) = true := by
  cases l with
  | nil => exact subList_nil_left rest
  | cons a as =>
    have h := beginsWith_append (a :: as) rest
    simp only [List.cons_append] at h
    simp [subList, h]

lemma data_qef : ("Query execution failed: ").data =
    ("Query execution failed").data ++ (": ").data := by decide

lemma containsSubstring_qef (e : String) :
    containsSubstring ("Query execution failed: " ++ e) "Query execution failed" = true := by
  unfold containsSubstring
  rw [String.data_append, data_qef, List.append_assoc]
  exact subList_self_append _ _

lemma isValidQuery_containsSelect {s : String} (h : isValidQuery s = true) :
    containsSelect s = true := by
  simp only [isValidQuery, Bool.and_eq_true] at h
  exact h.2

/-- If the retry loop ends with an invalid query (no `break` ever fired), it
performed all `fuel` remaining iterations. -/
lemma writeQueryGo_attempts (oracle : Nat → String → Option String)
    (question : Option String) :
    ∀ (fuel attempt : Nat) (sql_query : String),
      isValidQuery (writeQueryGo oracle question attempt fuel sql_query) = false →
      writeQueryAttempts oracle question attempt fuel = fuel := by
  intro fuel
  induction fuel with
  | zero => intro attempt sql_query _; rfl
  | succ fuel ih =>
    intro attempt sql_query h
    cases question with
    | none =>
      simp only [writeQueryGo] at h
      simp only [writeQueryAttempts, ih (attempt + 1) sql_query h]
      omega
    | some q =>
      simp only [writeQueryGo] at h
      simp only [writeQueryAttempts]
      cases ho : oracle attempt (attemptInput q attempt) with
      | none =>
        rw [ho] at h
        simp only [ho]
        have := ih (attempt + 1) sql_query h
        omega
      | some out =>
        rw [ho] at h
        simp only [ho]
        cases hv : isValidQuery out with
        | true => simp [hv] at h
        | false =>
          simp only [hv] at h
          simp only [Bool.false_eq_true, if_false] at h
          simp only [hv, Bool.false_eq_true, if_false]
          have := ih (attempt + 1) out h
          omega

/-- `execute_query` always returns normally, with only the `result` field set. -/
lemma execute_query_shape (execTool : String → Except String String) (s : State) :
    ∃ r, execute_query execTool s =
      Except.ok (StateUpdate.mk none none (some r) none) := by
  obtain ⟨f1, f2, f3, f4⟩ := s
  cases f2 with
  | none =>
    exact ⟨"Query execution failed: " ++ "KeyError: query", by simp [execute_query]⟩
  | some q =>
    cases ht : execTool q with
    | ok r => exact ⟨r, by simp [execute_query, ht]⟩
    | error e =>
      exact ⟨"Query execution failed: " ++ e, by simp [execute_query, ht]⟩

/-- `write_query` either raises or returns only a valid `query` field. -/
lemma write_query_shape (oracle : Nat → String → Option String) (s : State) :
    (∃ e, write_query oracle s 3 = Except.error e) ∨
    ∃ qs, write_query oracle s 3 = Except.ok (StateUpdate.mk none (some qs) none none) ∧
      isValidQuery qs = true := by
  cases hv : isValidQuery (writeQueryGo oracle s.question 0 3 "") with
  | true =>
    refine Or.inr ⟨writeQueryGo oracle s.question 0 3 "", ?_, hv⟩
    simp [write_query, hv]
  | false =>
    refine Or.inl ⟨"Failed to generate a valid SQL query after multiple attempts.", ?_⟩
    simp [write_query, hv]

/-- `generate_answer` either raises on a missing key or returns only the
`answer` field. -/
lemma generate_answer_shape (llmAnswer : String → String) (s : State) :
    (∃ e, generate_answer llmAnswer s = Except.error e) ∨
    ∃ a, generate_answer llmAnswer s =
      Except.ok (StateUpdate.mk none none none (some a)) := by
  obtain ⟨f1, f2, f3, f4⟩ := s
  cases f1 with
  | none => exact Or.inl ⟨"KeyError: question", by simp [generate_answer]⟩
  | some q =>
    cases f2 with
    | none => exact Or.inl ⟨"KeyError: query", by simp [generate_answer]⟩
    | some qu =>
      cases f3 with
      | none => exact Or.inl ⟨"KeyError: result", by simp [generate_answer]⟩
      | some r =>
        exact Or.inr ⟨llmAnswer (answerPrompt q qu r), by simp [generate_answer]⟩

/-- Every yielded step of a stream is keyed by the name of one of the nodes. -/
lemma streamSteps_yields_names :
    ∀ (nodes : List Node) (s : State) (p : String × StateUpdate),
      p ∈ (streamSteps nodes s).yields → p.1 ∈ nodes.map Node.name := by
  intro nodes
  induction nodes with
  | nil => intro s p hp; simp [streamSteps] at hp
  | cons n rest ih =>
    intro s p hp
    simp only [streamSteps] at hp
    cases hr : n.run s with
    | error e => rw [hr] at hp; simp at hp
    | ok u =>
      rw [hr] at hp
      simp only [List.mem_cons] at hp
      rcases hp with h1 | h2
      · simp [h1]
      · simp only [List.map_cons, List.mem_cons]
        exact Or.inr (ih (mergeUpdate s u) p h2)

/-- Both branches of the module tail start by invoking `write_query` on the
fixed test question. -/
lemma programTail_head (oracle : Nat → String → Option String) :
    (programTail oracle).1 =
      Event.callWriteQuery testQuestion :: (programTail oracle).1.tail := by
  unfold programTail
  cases hw : write_query oracle (State.mk (some testQuestion) none none none) 3 with
  | ok u => rfl
  | error e => rfl

/-! Concrete fixtures used by witnesses and counterexamples. -/

/-- A model oracle that always produces a valid query. -/
def goodOracle : Nat → String → Option String := fun _ _ => some "SELECT 1"

/-- A model oracle that raises whenever the prompt mentions Coldplay (so the
interactive question succeeds but the module-level test call fails on all
three attempts). -/
def cexOracle : Nat → String → Option String := fun _ input =>
  if containsSubstring input "Coldplay" then none else some "SELECT 1"

/-- A database tool that always succeeds. -/
def goodTool : String → Except String String := fun _ => Except.ok "[(42,)]"

/-- An answer model that always returns the same sentence. -/
def goodLlm : String → String := fun _ => "there are 42"

/-- Terminal inputs: one question, then "no" at every continue-prompt. -/
def noInputs : Nat → String := fun i => if i == 0 then "hi" else "no"

/-- Recogniser for the labeled stage prints of `ask_query`. -/
def isLabeledEvent : Event → Bool := fun e =>
  match e with
  | Event.labeled _ _ => true
  | _ => false

/-- Recogniser for the `print("Generated query:", ...)` of the module tail. -/
def isGeneratedQueryPrint : Event → Bool := fun e =>
  match e with
  | Event.out s => beginsWith ("Generated query: ").data s.data
  | _ => false

/-! Claim theorems. -/

/-- Claim C1: for every question, `write_query` (with its retry budget of 3)
either returns a record whose `query` field contains "SELECT"
case-insensitively, or raises after performing exactly 3 attempts; it never
returns a query lacking that substring. -/
theorem claim_C1 (oracle : Nat → String → Option String) (q : String) :
    (∃ s, write_query oracle (State.mk (some q) none none none) 3 =
        Except.ok (StateUpdate.mk none (some s) none none) ∧
      containsSelect s = true) ∨
    (write_query oracle (State.mk (some q) none none none) 3 =
        Except.error "Failed to generate a valid SQL query after multiple attempts." ∧
      writeQueryAttempts oracle (some q) 0 3 = 3) := by
  cases hv : isValidQuery (writeQueryGo oracle (some q) 0 3 "") with
  | true =>
    refine Or.inl ⟨writeQueryGo oracle (some q) 0 3 "", ?_, isValidQuery_containsSelect hv⟩
    simp [write_query, hv]
  | false =>
    refine Or.inr ⟨?_, writeQueryGo_attempts oracle (some q) 3 0 "" hv⟩
    simp [write_query, hv]

/-- Claim C2: `execute_query` always returns normally (any exception of the
tool call, including the KeyError of a missing "query" key, is caught); when
the tool raises, the returned `result` string embeds the error message and
contains "Query execution failed", flowing downstream as data. -/
theorem claim_C2 (execTool : String → Except String String) (state : State) :
    (∃ u, execute_query execTool state = Except.ok u) ∧
    (∀ q e, state.query = some q → execTool q = Except.error e →
      execute_query execTool state =
        Except.ok (StateUpdate.mk none none
          (some ("Query execution failed: " ++ e)) none) ∧
      containsSubstring ("Query execution failed: " ++ e)
        "Query execution failed" = true) := by
  constructor
  · obtain ⟨r, hr⟩ := execute_query_shape execTool state
    exact ⟨_, hr⟩
  · intro q e hq he
    refine ⟨?_, containsSubstring_qef e⟩
    obtain ⟨f1, f2, f3, f4⟩ := state
    simp only at hq
    subst hq
    simp [execute_query, he]

/-- Witness for C2 at the failing input given in the spec: a malformed query
`SELEC * FROM x` whose execution raises. -/
theorem claim_C2_witness :
    execute_query (fun _ => Except.error "no such table x")
        (State.mk (some "Q") (some "SELEC * FROM x") none none) =
      Except.ok (StateUpdate.mk none none
        (some ("Query execution failed: " ++ "no such table x")) none) ∧
    containsSubstring ("Query execution failed: " ++ "no such table x")
      "Query execution failed" = true :=
  (claim_C2 (fun _ => Except.error "no such table x")
      (State.mk (some "Q") (some "SELEC * FROM x") none none)).2
    "SELEC * FROM x" "no such table x" rfl rfl

/-- Claim C3: for every state carrying question, query and result, the prompt
`generate_answer` sends to the model is built exactly from the labeled fields
"Question:", "SQL Query:", "SQL Result:" in that order (whatever the result
string holds — error text included). -/
theorem claim_C3 (llmAnswer : String → String) (q qu r : String) (a : Option String) :
    generate_answer llmAnswer (State.mk (some q) (some qu) (some r) a) =
      Except.ok (StateUpdate.mk none none none
        (some (llmAnswer (answerPrompt q qu r)))) ∧
    answerPrompt q qu r = specLabeledPrompt answerHeader q qu r :=
  ⟨rfl, rfl⟩

/-- Counterexample to claim C4: the clause "no step reads a field another
step produced" would make `execute_query` depend only on the `question` field
(the one field no step produces), but its output changes with the `query`
field that `write_query` produced: it does read a field of another step. -/
theorem claim_C4_counterexample :
    ¬ ∀ (execTool : String → Except String String) (s1 s2 : State),
        s1.question = s2.question →
        execute_query execTool s1 = execute_query execTool s2 := by
  intro h
  have h2 := h (fun v => Except.ok v)
    (State.mk (some "Q") (some "SELECT 1") none none)
    (State.mk (some "Q") (some "SELECT 2") none none) rfl
  simp only [execute_query, Except.ok.injEq, StateUpdate.mk.injEq, Option.some.injEq,
    and_true, true_and] at h2
  exact absurd h2 (by decide)

/-- Claim C4 as amended: each step writes only its own field (`write_query`
only `query`, `execute_query` only `result`, `generate_answer` only
`answer`), and each step reads only the question plus the outputs of earlier
steps: `write_query` depends only on `question`, `execute_query` only on
`query`, `generate_answer` only on `question`, `query` and `result`. -/
theorem claim_C4_amended :
    (∀ (oracle : Nat → String → Option String) (s : State) (u : StateUpdate),
      write_query oracle s 3 = Except.ok u →
      ∃ qs, u = StateUpdate.mk none (some qs) none none) ∧
    (∀ (execTool : String → Except String String) (s : State),
      ∃ r, execute_query execTool s =
        Except.ok (StateUpdate.mk none none (some r) none)) ∧
    (∀ (llmAnswer : String → String) (s : State) (u : StateUpdate),
      generate_answer llmAnswer s = Except.ok u →
      ∃ a, u = StateUpdate.mk none none none (some a)) ∧
    (∀ (oracle : Nat → String → Option String) (s1 s2 : State),
      s1.question = s2.question →
      write_query oracle s1 3 = write_query oracle s2 3) ∧
    (∀ (execTool : String → Except String String) (s1 s2 : State),
      s1.query = s2.query →
      execute_query execTool s1 = execute_query execTool s2) ∧
    (∀ (llmAnswer : String → String) (s1 s2 : State),
      s1.question = s2.question → s1.query = s2.query → s1.result = s2.result →
      generate_answer llmAnswer s1 = generate_answer llmAnswer s2) := by
  refine ⟨?_, ?_, ?_, ?_, ?_, ?_⟩
  · intro oracle s u hu
    rcases write_query_shape oracle s with ⟨e, he⟩ | ⟨qs, hok, _⟩
    · rw [he] at hu; exact absurd hu (by simp)
    · rw [hok] at hu
      exact ⟨qs, by injection hu with h2; exact h2.symm⟩
  · exact execute_query_shape
  · intro llmAnswer s u hu
    rcases generate_answer_shape llmAnswer s with ⟨e, he⟩ | ⟨a, hok⟩
    · rw [he] at hu; exact absurd hu (by simp)
    · rw [hok] at hu
      exact ⟨a, by injection hu with h2; exact h2.symm⟩
  · intro oracle s1 s2 hq
    unfold write_query
    rw [hq]
  · intro execTool s1 s2 hq
    unfold execute_query
    rw [hq]
  · intro llmAnswer s1 s2 h1 h2 h3
    unfold generate_answer
    rw [h1, h2, h3]

/-- Witness for the amended C4: concretely, `execute_query` ignores every
field but `query`. -/
theorem claim_C4_amended_witness :
    execute_query goodTool (State.mk (some "A") (some "SELECT 1") none none) =
      execute_query goodTool
        (State.mk (some "B") (some "SELECT 1") (some "junk") (some "x")) :=
  claim_C4_amended.2.2.2.2.1 goodTool
    (State.mk (some "A") (some "SELECT 1") none none)
    (State.mk (some "B") (some "SELECT 1") (some "junk") (some "x")) rfl

/-- Counterexample to claim C5: with a model that answers the interactive
question but fails all three attempts of the module-level test call, entering
"no" at the continue-prompt does end the loop — yet the process exits with
status 1 (the uncaught `ValueError` of the test call at the bottom of the
module), not 0 as the claim states. -/
theorem claim_C5_counterexample :
    stripLower (noInputs 1) ≠ "yes" ∧
    (mainLoop cexOracle goodTool goodLlm noInputs 1 0).2 = some 1 :=
  ⟨by decide, by decide⟩

/-- Claim C5 as amended: the loop continues iff the continue input, stripped
and lowercased, equals "yes"; any other input prints the farewell and exits
the loop, after which the process runs the module-level test call and
terminates — with exit status 0 exactly when that final `write_query` call
succeeds. -/
theorem claim_C5_amended (oracle : Nat → String → Option String)
    (execTool : String → Except String String) (llmAnswer : String → String)
    (inputs : Nat → String) (fuel idx : Nat)
    (h : (ask_query (graphNodes oracle execTool llmAnswer) (inputs idx)).2 = none) :
    ((stripLower (inputs (idx + 1)) == "yes") = true →
      mainLoop oracle execTool llmAnswer inputs (fuel + 1) idx =
        ((ask_query (graphNodes oracle execTool llmAnswer) (inputs idx)).1 ++
           Event.out contPrompt ::
             (mainLoop oracle execTool llmAnswer inputs fuel (idx + 2)).1,
         (mainLoop oracle execTool llmAnswer inputs fuel (idx + 2)).2)) ∧
    ((stripLower (inputs (idx + 1)) == "yes") = false →
      mainLoop oracle execTool llmAnswer inputs (fuel + 1) idx =
        ((ask_query (graphNodes oracle execTool llmAnswer) (inputs idx)).1 ++
           Event.out contPrompt :: Event.out "Goodbye! 👋" :: (programTail oracle).1,
         some (programTail oracle).2) ∧
      ((programTail oracle).2 = 0 ↔
        ∃ u, write_query oracle (State.mk (some testQuestion) none none none) 3 =
          Except.ok u)) := by
  constructor
  · intro hy
    simp only [mainLoop, h, hy, if_true]
  · intro hn
    refine ⟨by simp only [mainLoop, h, hn, Bool.false_eq_true, if_false], ?_⟩
    unfold programTail
    cases hw : write_query oracle (State.mk (some testQuestion) none none none) 3 with
    | ok u => simp [hw]
    | error e => simp [hw]

/-- Witness for the amended C5 at a concrete run: one answered question, then
"no". -/
theorem claim_C5_amended_witness :
    mainLoop goodOracle goodTool goodLlm noInputs 1 0 =
      ((ask_query (graphNodes goodOracle goodTool goodLlm) (noInputs 0)).1 ++
         Event.out contPrompt :: Event.out "Goodbye! 👋" :: (programTail goodOracle).1,
       some (programTail goodOracle).2) :=
  ((claim_C5_amended goodOracle goodTool goodLlm noInputs 0 0 (by decide)).2
    (by decide)).1

/-- Claim C6 names a code bug: `graph.stream(..., stream_mode="updates")`
yields steps keyed by node name ("write_query", "execute_query",
"generate_answer"), so the `if "query" in step / elif "result" in step /
elif "answer" in step` branches of `ask_query` never fire: no stage output is
ever printed under its label, for any question and any model — only the raw
"Step output:" debug print runs. -/
theorem claim_C6 (oracle : Nat → String → Option String)
    (execTool : String → Except String String) (llmAnswer : String → String)
    (question : String) :
    ((ask_query (graphNodes oracle execTool llmAnswer) question).1.any
      isLabeledEvent) = false := by
  rw [List.any_eq_false]
  intro ev hev
  simp only [ask_query, List.mem_cons] at hev
  rcases hev with h1 | h2 | h3
  · subst h1; simp [isLabeledEvent]
  · subst h2; simp [isLabeledEvent]
  · rw [List.mem_flatMap] at h3
    obtain ⟨p, hp, hep⟩ := h3
    have hn := streamSteps_yields_names (graphNodes oracle execTool llmAnswer)
      (State.mk (some question) none none none) p hp
    simp only [graphNodes, List.map_cons, List.map_nil, List.mem_cons,
      List.mem_singleton] at hn
    have e1 : (("write_query" : String) == "query") = false := by decide
    have e2 : (("write_query" : String) == "result") = false := by decide
    have e3 : (("write_query" : String) == "answer") = false := by decide
    have e4 : (("execute_query" : String) == "query") = false := by decide
    have e5 : (("execute_query" : String) == "result") = false := by decide
    have e6 : (("execute_query" : String) == "answer") = false := by decide
    have e7 : (("generate_answer" : String) == "query") = false := by decide
    have e8 : (("generate_answer" : String) == "result") = false := by decide
    have e9 : (("generate_answer" : String) == "answer") = false := by decide
    rcases hn with hn | hn | hn | hn <;>
      first
      | (rw [stepPrints, hn] at hep
         simp only [e1, e2, e3, e4, e5, e6, e7, e8, e9, Bool.false_eq_true, if_false,
           List.mem_singleton, List.mem_cons, List.not_mem_nil, or_false] at hep
         subst hep
         simp [isLabeledEvent])
      | simp at hn

/-- Claim C7: the compiled graph is exactly the three stages in the fixed
order write_query → execute_query → generate_answer, run synchronously with
one entry and one exit: the invocation order is always a prefix of that
sequence, and a run without an exception invokes exactly the three, in that
order, once each. -/
theorem claim_C7 (oracle : Nat → String → Option String)
    (execTool : String → Except String String) (llmAnswer : String → String)
    (s : State) :
    ((graphNodes oracle execTool llmAnswer).map Node.name =
      ["write_query", "execute_query", "generate_answer"]) ∧
    ((streamSteps (graphNodes oracle execTool llmAnswer) s).invoked =
        ["write_query"] ∨
     (streamSteps (graphNodes oracle execTool llmAnswer) s).invoked =
        ["write_query", "execute_query"] ∨
     (streamSteps (graphNodes oracle execTool llmAnswer) s).invoked =
        ["write_query", "execute_query", "generate_answer"]) ∧
    ((streamSteps (graphNodes oracle execTool llmAnswer) s).err = none →
      (streamSteps (graphNodes oracle execTool llmAnswer) s).invoked =
        ["write_query", "execute_query", "generate_answer"] ∧
      (streamSteps (graphNodes oracle execTool llmAnswer) s).yields.map Prod.fst =
        ["write_query", "execute_query", "generate_answer"]) := by
  refine ⟨rfl, ?_⟩
  rcases write_query_shape oracle s with ⟨e, he⟩ | ⟨qs, hok, _⟩
  · constructor
    · left
      simp [graphNodes, streamSteps, he]
    · intro hnone
      simp [graphNodes, streamSteps, he] at hnone
  · obtain ⟨r, hr⟩ := execute_query_shape execTool (mergeUpdate s
      (StateUpdate.mk none (some qs) none none))
    rcases generate_answer_shape llmAnswer
        (mergeUpdate (mergeUpdate s (StateUpdate.mk none (some qs) none none))
          (StateUpdate.mk none none (some r) none)) with ⟨e, hg⟩ | ⟨a, hg⟩
    · constructor
      · right; right
        simp [graphNodes, streamSteps, hok, hr, hg]
      · intro hnone
        simp [graphNodes, streamSteps, hok, hr, hg] at hnone
    · constructor
      · right; right
        simp [graphNodes, streamSteps, hok, hr, hg]
      · intro _
        constructor
        · simp [graphNodes, streamSteps, hok, hr, hg]
        · simp [graphNodes, streamSteps, hok, hr, hg]

/-- Witness for C7: a concrete successful run invokes exactly the three
stages in order. -/
theorem claim_C7_witness :
    (streamSteps (graphNodes goodOracle goodTool goodLlm)
        (State.mk (some "hi") none none none)).invoked =
      ["write_query", "execute_query", "generate_answer"] :=
  ((claim_C7 goodOracle goodTool goodLlm
      (State.mk (some "hi") none none none)).2.2 (by decide)).1

/-- Claim C8: if the startup database connection raises, the process prints
one message naming the error and exits at once — the whole run consists of
that single print (so no pipeline component, step print or `write_query`
invocation ever happens). -/
theorem claim_C8 (e : String) (isMain : Bool) (oracle : Nat → String → Option String)
    (execTool : String → Except String String) (llmAnswer : String → String)
    (inputs : Nat → String) (fuel : Nat) :
    wholeProgram isMain (Except.error e) oracle execTool llmAnswer inputs fuel =
      ([Event.out ("Database connection error: " ++ e)], some 0) ∧
    ∀ ev ∈ (wholeProgram isMain (Except.error e) oracle execTool llmAnswer
        inputs fuel).1,
      ev = Event.out ("Database connection error: " ++ e) := by
  refine ⟨rfl, ?_⟩
  intro ev hev
  simpa [wholeProgram] using hev

/-- Witness for C8 at a concrete connection error. -/
theorem claim_C8_witness :
    wholeProgram true (Except.error "boom") goodOracle goodTool goodLlm noInputs 1 =
      ([Event.out ("Database connection error: " ++ "boom")], some 0) ∧
    Event.out ("Database connection error: " ++ "boom") =
      Event.out ("Database connection error: " ++ "boom") :=
  ⟨(claim_C8 "boom" true goodOracle goodTool goodLlm noInputs 1).1,
   (claim_C8 "boom" true goodOracle goodTool goodLlm noInputs 1).2
     (Event.out ("Database connection error: " ++ "boom")) (by decide)⟩

/-- Counterexample to claim C9: when the module-level test call fails on all
three attempts (model raising whenever the prompt mentions Coldplay),
`write_query` is indeed invoked one more time after the farewell — but no
"Generated query:" line is ever printed: the process dies with the uncaught
`ValueError` (status 1) before printing anything. -/
theorem claim_C9_counterexample :
    ((mainLoop cexOracle goodTool goodLlm noInputs 1 0).1.any
      (fun ev => ev == Event.callWriteQuery testQuestion)) = true ∧
    ((mainLoop cexOracle goodTool goodLlm noInputs 1 0).1.any
      isGeneratedQueryPrint) = false ∧
    (mainLoop cexOracle goodTool goodLlm noInputs 1 0).2 = some 1 :=
  ⟨by decide, by decide, by decide⟩

/-- Claim C9 as amended: after the loop ends on a non-"yes" answer (and
likewise when the module is merely loaded, skipping the guarded loop),
`write_query` is invoked one more time with the fixed question "How many
songs does Coldplay have?" before the process ends; when that call succeeds
its generated query is printed and the exit status is 0.  Rejecting the
continue-prompt therefore does not immediately end the process. -/
theorem claim_C9_amended :
    (∀ (oracle : Nat → String → Option String)
        (execTool : String → Except String String) (llmAnswer : String → String)
        (inputs : Nat → String) (fuel idx : Nat),
      (ask_query (graphNodes oracle execTool llmAnswer) (inputs idx)).2 = none →
      (stripLower (inputs (idx + 1)) == "yes") = false →
      mainLoop oracle execTool llmAnswer inputs (fuel + 1) idx =
        ((ask_query (graphNodes oracle execTool llmAnswer) (inputs idx)).1 ++
           Event.out contPrompt :: Event.out "Goodbye! 👋" ::
             Event.callWriteQuery testQuestion :: (programTail oracle).1.tail,
         some (programTail oracle).2) ∧
      (∀ u, write_query oracle (State.mk (some testQuestion) none none none) 3 =
          Except.ok u →
        (programTail oracle).1.tail =
          [Event.out ("Generated query: " ++ u.query.getD "")] ∧
        (programTail oracle).2 = 0)) ∧
    (∀ (oracle : Nat → String → Option String)
        (execTool : String → Except String String) (llmAnswer : String → String)
        (inputs : Nat → String) (fuel : Nat),
      runModule false oracle execTool llmAnswer inputs fuel =
        ((programTail oracle).1, some (programTail oracle).2) ∧
      ∃ es, (programTail oracle).1 = Event.callWriteQuery testQuestion :: es) := by
  constructor
  · intro oracle execTool llmAnswer inputs fuel idx h hn
    constructor
    · simp only [mainLoop, h, hn, Bool.false_eq_true, if_false]
      conv_lhs => rw [programTail_head oracle]
    · intro u hu
      unfold programTail
      simp [hu]
  · intro oracle execTool llmAnswer inputs fuel
    exact ⟨rfl, (programTail oracle).1.tail, programTail_head oracle⟩

/-- Witness for the amended C9 at a concrete run ending on "no". -/
theorem claim_C9_amended_witness :
    mainLoop goodOracle goodTool goodLlm noInputs 1 0 =
      ((ask_query (graphNodes goodOracle goodTool goodLlm) (noInputs 0)).1 ++
         Event.out contPrompt :: Event.out "Goodbye! 👋" ::
           Event.callWriteQuery testQuestion :: (programTail goodOracle).1.tail,
       some (programTail goodOracle).2) :=
  (claim_C9_amended.1 goodOracle goodTool goodLlm noInputs 0 0
    (by decide) (by decide)).1

/-- Claim C10: the startup connection-failure path exits through a bare
`exit()`, so the process status is 0 — the same status as a fully successful
interactive run, hence indistinguishable from a successful exit. -/
theorem claim_C10 :
    (∀ (e : String) (isMain : Bool) (oracle : Nat → String → Option String)
        (execTool : String → Except String String) (llmAnswer : String → String)
        (inputs : Nat → String) (fuel : Nat),
      (wholeProgram isMain (Except.error e) oracle execTool llmAnswer
        inputs fuel).2 = some 0) ∧
    (wholeProgram true (Except.ok (DbHandle.mk "mysql" ["music_dataset"]))
        goodOracle goodTool goodLlm noInputs 1).2 = some 0 := by
  constructor
  · intro e isMain oracle execTool llmAnswer inputs fuel
    rfl
  · decide

end SqlAgent
